import Mathlib

/-
Verification development for the redease repository: an Express.js
response-caching middleware backed by Redis (ioredis).

The embedding below translates the repository's source files into Lean:
  * src/utils.ts        — generateCacheKey, healthCheck
  * src/cache-middleware.ts      — cache (read-through interceptor), cacheResponse
  * src/invalidate-middleware.ts — invalidate, invalidateByKey, invalidateByPattern
  * src/redis-client.ts — createRedisClient singleton reuse
JavaScript's JSON.parse / JSON.stringify are modelled by an executable JSON
value type with a fueled recursive-descent reader and a writer (numbers are
restricted to integers and string escapes to the common ones; this subset is
all the claims exercise).  Redis is modelled as an association list of
(key, ttl, value) entries with get / setex / del / keys-with-glob operations.
Asynchrony is flattened: each per-request handler becomes a function from its
inputs (request, configuration, client status, and oracles for the results of
the predicate and the raced store read) to an outcome record capturing the
observable effects: whether next() ran, the cache-status record, the payload
emitted by the middleware itself, whether the emission wrappers were
installed, and whether store I/O was attempted.
-/

/-- JSON values, the payloads JSON.parse returns and JSON.stringify consumes.
Numbers are modelled as integers. -/
inductive Json where
  | null : Json
  | bool : Bool → Json
  | num : Int → Json
  | str : String → Json
  | arr : List Json → Json
  | obj : List (String × Json) → Json
deriving Repr

/-- Escaping of a single character inside a JSON string literal. -/
def escapeJsonChar (c : Char) : String :=
  if c = '"' then "\\\""
  else if c = '\\' then "\\\\"
  else if c = '\n' then "\\n"
  else if c = '\t' then "\\t"
  else if c = '\r' then "\\r"
  else String.singleton c

/-- Escaping of a whole JSON string body. -/
def escapeJsonString (s : String) : String :=
  String.join (s.toList.map escapeJsonChar)

mutual

/-- Model of JavaScript's JSON.stringify on the Json subset. -/
def jsonStringify : Json → String
  | .null => "null"
  | .bool true => "true"
  | .bool false => "false"
  | .num n => toString n
  | .str s => "\"" ++ escapeJsonString s ++ "\""
  | .arr xs => "[" ++ stringifyElems xs ++ "]"
  | .obj fs => "\x7b" ++ stringifyMembers fs ++ "\x7d"

/-- Comma-separated serialization of array elements. -/
def stringifyElems : List Json → String
  | [] => ""
  | [x] => jsonStringify x
  | x :: y :: xs => jsonStringify x ++ "," ++ stringifyElems (y :: xs)

/-- Comma-separated serialization of object members. -/
def stringifyMembers : List (String × Json) → String
  | [] => ""
  | [(k, v)] => "\"" ++ escapeJsonString k ++ "\":" ++ jsonStringify v
  | (k, v) :: m :: ms =>
    "\"" ++ escapeJsonString k ++ "\":" ++ jsonStringify v ++ "," ++ stringifyMembers (m :: ms)

end

/-- Whitespace skipping for the JSON reader. -/
def skipWs : List Char → List Char
  | [] => []
  | c :: cs => if c = ' ' || c = '\n' || c = '\t' || c = '\r' then skipWs cs else c :: cs

/-- Decoding of a backslash escape inside a JSON string literal. -/
def parseEscape (c : Char) : Option Char :=
  if c = '"' then some '"'
  else if c = '\\' then some '\\'
  else if c = '/' then some '/'
  else if c = 'n' then some '\n'
  else if c = 't' then some '\t'
  else if c = 'r' then some '\r'
  else none

/-- Reading of a JSON string body after the opening quote; returns the decoded
string and the remaining input. -/
def parseStringBody : List Char → Option (String × List Char)
  | [] => none
  | '"' :: cs => some ("", cs)
  | '\\' :: e :: cs =>
    match parseEscape e with
    | some r =>
      match parseStringBody cs with
      | some (s, rest) => some (String.singleton r ++ s, rest)
      | none => none
    | none => none
  | c :: cs =>
    match parseStringBody cs with
    | some (s, rest) => some (String.singleton c ++ s, rest)
    | none => none

/-- Accumulation of decimal digits into a natural number. -/
def digitsToNat : List Char → Nat → Nat
  | [], acc => acc
  | c :: cs, acc => digitsToNat cs (acc * 10 + (c.toNat - Char.toNat '0'))

/-- Reading of a nonempty digit run. -/
def parseNat (cs : List Char) : Option (Nat × List Char) :=
  let ds := cs.takeWhile Char.isDigit
  if ds.isEmpty then none
  else some (digitsToNat ds 0, cs.drop ds.length)

/-- Reading of an integer JSON number, with optional leading minus sign. -/
def parseNumber : List Char → Option (Json × List Char)
  | '-' :: cs =>
    match parseNat cs with
    | some (n, rest) => some (.num (-(n : Int)), rest)
    | none => none
  | cs =>
    match parseNat cs with
    | some (n, rest) => some (.num (n : Int), rest)
    | none => none

mutual

/-- Fueled recursive-descent reader for a single JSON value. -/
def parseValue : Nat → List Char → Option (Json × List Char)
  | 0, _ => none
  | f + 1, cs =>
    let cs1 := skipWs cs
    if List.isPrefixOf "null".toList cs1 then some (.null, cs1.drop 4)
    else if List.isPrefixOf "true".toList cs1 then some (.bool true, cs1.drop 4)
    else if List.isPrefixOf "false".toList cs1 then some (.bool false, cs1.drop 5)
    else
      match cs1 with
      | [] => none
      | c :: rest =>
        if c = '"' then
          match parseStringBody rest with
          | some (s, r) => some (.str s, r)
          | none => none
        else if c = '[' then
          match skipWs rest with
          | ']' :: r => some (.arr [], r)
          | r2 =>
            match parseElems f r2 with
            | some (xs, r3) => some (.arr xs, r3)
            | none => none
        else if c = '\x7b' then
          match skipWs rest with
          | '\x7d' :: r => some (.obj [], r)
          | r2 =>
            match parseMembers f r2 with
            | some (fs, r3) => some (.obj fs, r3)
            | none => none
        else if c = '-' || c.isDigit then parseNumber cs1
        else none

/-- Fueled reader for the elements of a nonempty JSON array. -/
def parseElems : Nat → List Char → Option (List Json × List Char)
  | 0, _ => none
  | f + 1, cs =>
    match parseValue f cs with
    | none => none
    | some (v, r) =>
      match skipWs r with
      | ',' :: r2 =>
        match parseElems f r2 with
        | some (vs, r3) => some (v :: vs, r3)
        | none => none
      | ']' :: r2 => some ([v], r2)
      | _ => none

/-- Fueled reader for the members of a nonempty JSON object. -/
def parseMembers : Nat → List Char → Option (List (String × Json) × List Char)
  | 0, _ => none
  | f + 1, cs =>
    match skipWs cs with
    | '"' :: r =>
      match parseStringBody r with
      | some (k, r1) =>
        match skipWs r1 with
        | ':' :: r2 =>
          match parseValue f r2 with
          | some (v, r3) =>
            match skipWs r3 with
            | ',' :: r4 =>
              match parseMembers f r4 with
              | some (fs, r5) => some ((k, v) :: fs, r5)
              | none => none
            | '\x7d' :: r4 => some ([(k, v)], r4)
            | _ => none
          | none => none
        | _ => none
      | none => none
    | _ => none

end

/-- Model of JavaScript's JSON.parse: total parse of the whole input, with
failure (a thrown SyntaxError in JavaScript) modelled as none. -/
def jsonParse (s : String) : Option Json :=
  match parseValue (2 * s.length + 4) s.toList with
  | some (v, rest) => if (skipWs rest).isEmpty then some v else none
  | none => none

/-- An incoming HTTP request, with the fields the middleware reads:
req.method and req.originalUrl (full path including query string). -/
structure Req where
  method : String
  originalUrl : String

/-- The key specification of CacheOptions / InvalidateOptions: absent, a
literal string, a derivation function, or — beyond the declared TypeScript
type but present in the README's documented usage — a list of literal keys. -/
inductive KeySpec where
  | noKey : KeySpec
  | lit : String → KeySpec
  | fn : (Req → String) → KeySpec
  | list : List String → KeySpec

/-- Model of generateCacheKey (src/utils.ts).  JavaScript truthiness is
modelled faithfully: an empty prefix string falls back to "cache"
(options.prefix || "cache"), an empty literal key falls back to the
method:originalUrl default (else if (options.key)), and an array — always a
truthy non-function object at runtime — is coerced by the template literal
into its comma-joined element string (Array.prototype.toString). -/
def generateCacheKey (req : Req) (keySpec : KeySpec) (prefixStr : Option String) : String :=
  let p := match prefixStr with
    | some s => if s = "" then "cache" else s
    | none => "cache"
  let body := match keySpec with
    | .fn f => f req
    | .lit s => if s = "" then req.method ++ ":" ++ req.originalUrl else s
    | .list ks => String.intercalate "," ks
    | .noKey => req.method ++ ":" ++ req.originalUrl
  p ++ ":" ++ body

/-- The ioredis connection status values. The "end" status is spelled
endStatus because end is a Lean keyword. -/
inductive RedisStatus where
  | wait : RedisStatus
  | reconnecting : RedisStatus
  | connecting : RedisStatus
  | connect : RedisStatus
  | ready : RedisStatus
  | close : RedisStatus
  | endStatus : RedisStatus
deriving Repr, DecidableEq

/-- The Redis keyspace: an association list of (key, ttl seconds, value)
entries, newest first. -/
abbrev Store := List (String × Nat × String)

/-- Model of the store GET command: the value stored under a key, if any. -/
def storeGet (s : Store) (k : String) : Option String :=
  match s.find? (fun e => e.1 = k) with
  | some e => some e.2.2
  | none => none

/-- Model of the store SETEX command: binds the key to the value with the
given expiry, replacing any previous entry. -/
def storeSetex (s : Store) (k : String) (t : Nat) (v : String) : Store :=
  (k, t, v) :: s.filter (fun e => e.1 ≠ k)

/-- Model of the store DEL command on a single key. -/
def storeDel (s : Store) (k : String) : Store :=
  s.filter (fun e => e.1 ≠ k)

/-- Model of the variadic store DEL command on a batch of keys. -/
def storeDelAll (s : Store) (ks : List String) : Store :=
  s.filter (fun e => ¬ ks.contains e.1)

/-- Fueled core of the glob matcher; every recursive call shortens the
combined pattern-plus-key length, so the zero-fuel case is unreachable when
started with enough fuel. -/
def globMatchFuel : Nat → List Char → List Char → Bool
  | 0, _, _ => false
  | _ + 1, [], [] => true
  | _ + 1, [], _ :: _ => false
  | f + 1, '*' :: ps, [] => globMatchFuel f ps []
  | f + 1, '*' :: ps, c :: cs =>
    globMatchFuel f ps (c :: cs) || globMatchFuel f ('*' :: ps) cs
  | _ + 1, '?' :: _, [] => false
  | f + 1, '?' :: ps, _ :: cs => globMatchFuel f ps cs
  | _ + 1, _ :: _, [] => false
  | f + 1, p :: ps, c :: cs => p = c && globMatchFuel f ps cs

/-- Redis glob matching restricted to the star and question-mark wildcards
(the only forms the repository's documentation exercises). The first
argument is the pattern, the second the key. -/
def globMatch (ps cs : List Char) : Bool :=
  globMatchFuel (ps.length + cs.length + 1) ps cs

/-- Model of the store KEYS command: all keys matching a glob pattern. -/
def storeKeys (s : Store) (pat : String) : List String :=
  (s.map (fun e => e.1)).filter (fun k => globMatch pat.toList k.toList)

/-- Substring test on character lists, modelling String.prototype.includes. -/
def listContainsSub (needle : List Char) : List Char → Bool
  | [] => needle.isEmpty
  | c :: cs => List.isPrefixOf needle (c :: cs) || listContainsSub needle cs

/-- The content-type guard of the wrapped res.end: the header must be a
string containing "application/json". -/
def includesJsonContentType (ct : Option String) : Bool :=
  match ct with
  | some s => listContainsSub "application/json".toList s.toList
  | none => false

/-- The cache-middleware configuration (CacheOptions), with the fields the
middleware reads. isCacheable records whether a predicate is configured; its
runtime result is supplied separately as an oracle. -/
structure CacheOpts where
  key : KeySpec
  prefixStr : Option String
  ttl : Option Nat
  timeout : Option Nat
  isCacheable : Bool

/-- The default cache configuration, cache({}). -/
def defaultCacheOpts : CacheOpts :=
  ⟨KeySpec.noKey, none, none, none, false⟩

/-- The effective time-to-live: options.ttl || 60, so a configured 0 also
falls back to 60 by JavaScript falsiness. -/
def effectiveTtl (o : CacheOpts) : Nat :=
  match o.ttl with
  | some t => if t = 0 then 60 else t
  | none => 60

/-- The effective read timeout in milliseconds: options.timeout || 5000. -/
def effectiveTimeout (o : CacheOpts) : Nat :=
  match o.timeout with
  | some t => if t = 0 then 5000 else t
  | none => 5000

/-- The res.locals.cacheStatus record the middleware attaches. -/
structure CacheStatusRec where
  hit : Bool
  key : String
deriving Repr, DecidableEq

/-- The outcome of the raced store read: a resolved GET (value or null), or a
raised error — the distinguished timeout CacheError from the racing timer, or
any other rejection from the client. -/
inductive ReadErr where
  | timeoutErr : ReadErr
  | otherErr : ReadErr
deriving Repr, DecidableEq

/-- The observable outcome of one execution of the cache middleware's
per-request handler: whether next() was invoked, the cacheStatus record left
on res.locals (none when the method guard returned before it was set), the
payload the middleware itself emitted via res.json, whether the res.json /
res.end wrappers were installed, and whether a store read was attempted. -/
structure CacheOutcome where
  nextCalled : Bool
  cacheStatus : Option CacheStatusRec
  emitted : Option Json
  wrapped : Bool
  readAttempted : Bool
deriving Repr

/-- The cacheable flag computed by the middleware: true when no predicate is
configured; otherwise the predicate's result, with a thrown predicate treated
as not cacheable. -/
def evalCacheable (opts : CacheOpts) (predResult : Except Unit Bool) : Bool :=
  if opts.isCacheable then
    match predResult with
    | .ok b => b
    | .error _ => false
  else true

/-- Model of the per-request handler returned by cache(options)
(src/cache-middleware.ts). Control flow is translated branch for branch:
non-GET methods pass through before cacheStatus is initialized; the
predicate gate; key derivation into cacheStatus; the availability check
(redisClient exists and status === "ready"); then the raced read. A truthy
cached value (non-null, non-empty) takes the hit path — hit is set before
JSON.parse, so an unparseable value leaves hit=true while the thrown
SyntaxError is caught by the surrounding catch, which calls next() without
wrapping. A falsy value (null or "") takes the miss path: wrappers installed,
next() called. A read error is caught: next() called, no wrappers. -/
def cacheRun (opts : CacheOpts) (client : Option RedisStatus) (req : Req)
    (predResult : Except Unit Bool) (readResult : Except ReadErr (Option String)) :
    CacheOutcome :=
  if req.method = "GET" then
    let st0 : CacheStatusRec := ⟨false, ""⟩
    if evalCacheable opts predResult then
      let cacheKey := generateCacheKey req opts.key opts.prefixStr
      let st1 : CacheStatusRec := ⟨false, cacheKey⟩
      match client with
      | none => ⟨true, some st1, none, false, false⟩
      | some s =>
        if s = RedisStatus.ready then
          match readResult with
          | .error _ => ⟨true, some st1, none, false, true⟩
          | .ok none => ⟨true, some st1, none, true, true⟩
          | .ok (some v) =>
            if v = "" then ⟨true, some st1, none, true, true⟩
            else
              match jsonParse v with
              | some j => ⟨false, some ⟨true, cacheKey⟩, some j, false, true⟩
              | none => ⟨true, some ⟨true, cacheKey⟩, none, false, true⟩
        else ⟨true, some st1, none, false, false⟩
    else ⟨true, some st0, none, false, false⟩
  else ⟨true, none, none, false, false⟩

/-- Model of cacheResponse (src/cache-middleware.ts): serialize the body with
JSON.stringify and SETEX it under the key with the configured expiry. -/
def cacheResponse (store : Store) (k : String) (data : Json) (t : Nat) : Store :=
  storeSetex store k t (jsonStringify data)

/-- Model of the wrapped res.json installed on a cache miss: when the current
response status is 2xx the body is written to the store (fire-and-forget),
and in every case the body is forwarded unchanged to the original res.json.
Returns the store after the write together with the forwarded body. -/
def wrappedJson (store : Store) (cacheKey : String) (t : Nat) (statusCode : Nat)
    (body : Json) : Store × Json :=
  if 200 ≤ statusCode ∧ statusCode < 300 then
    (cacheResponse store cacheKey body t, body)
  else (store, body)

/-- Model of the wrapped res.end installed on a cache miss: the chunk is
written to the store only when the status is 2xx, the chunk is truthy, the
content-type header is a string containing "application/json", and the chunk
parses as JSON (the stored value is the restringified parse). The chunk is
always forwarded unchanged to the original res.end. -/
def wrappedEnd (store : Store) (cacheKey : String) (t : Nat) (statusCode : Nat)
    (chunk : Option String) (contentType : Option String) : Store × Option String :=
  if 200 ≤ statusCode ∧ statusCode < 300 then
    match chunk with
    | some c =>
      if c ≠ "" ∧ includesJsonContentType contentType = true then
        match jsonParse c with
        | some b => (cacheResponse store cacheKey b t, chunk)
        | none => (store, chunk)
      else (store, chunk)
    | none => (store, chunk)
  else (store, chunk)

/-- The invalidation-middleware configuration (InvalidateOptions). -/
structure InvalidateOpts where
  key : KeySpec
  prefixStr : Option String
  pattern : Option String

/-- The observable outcome of one execution of the invalidation middleware's
per-request handler: the resulting store, how many times next() was invoked,
the pattern passed to the store's KEYS scan (if any), the keys passed to DEL,
and whether the handler reached its store-I/O block at all. -/
structure InvOutcome where
  store : Store
  nextCalls : Nat
  scanned : Option String
  deleted : List String
  attempted : Bool
deriving Repr

/-- The key branch of the invalidation handler: derive the single key via
generateCacheKey and delete it. -/
def invalidateKeyBranch (opts : InvalidateOpts) (req : Req) (store : Store) : InvOutcome :=
  let k := generateCacheKey req opts.key opts.prefixStr
  ⟨storeDel store k, 1, none, [k], true⟩

/-- Model of the per-request handler returned by invalidate(options)
(src/invalidate-middleware.ts). If the client is missing or not ready, skip
and call next(). Otherwise, in a try block: the gate is the JavaScript-truthy
if (options.pattern), so only a configured NON-EMPTY pattern takes the scan
branch — keys matching it are scanned (the pattern passed verbatim) and any
found are batch-deleted; an absent pattern, or a configured empty string
(falsy), takes the key branch instead; then next(). Any exception from the
store operations is caught and next() is called — the storeFails flag
injects such an exception at the first store operation. -/
def invalidateRun (opts : InvalidateOpts) (client : Option RedisStatus) (req : Req)
    (store : Store) (storeFails : Bool) : InvOutcome :=
  match client with
  | none => ⟨store, 1, none, [], false⟩
  | some s =>
    if s = RedisStatus.ready then
      if storeFails then ⟨store, 1, none, [], true⟩
      else
        match opts.pattern with
        | some p =>
          if p = "" then invalidateKeyBranch opts req store
          else
            let ks := storeKeys store p
            ⟨storeDelAll store ks, 1, some p, ks, true⟩
        | none => invalidateKeyBranch opts req store
    else ⟨store, 1, none, [], false⟩

/-- A live ioredis client handle: an identity (so distinct constructions are
distinguishable) and its connection status. -/
structure ClientHandle where
  cid : Nat
  status : RedisStatus
deriving Repr, DecidableEq

/-- Model of createRedisClient (src/redis-client.ts) acting on the module
singleton: if a client exists whose status is "ready" or "connect", it is
returned and the singleton is unchanged; otherwise a new client (freshClient,
standing for new Redis(urlOrOptions)) is constructed, stored in the
singleton, and returned. Returns (returned handle, new singleton). -/
def createRedisClient (existing : Option ClientHandle) (freshClient : ClientHandle) :
    ClientHandle × Option ClientHandle :=
  match existing with
  | some c =>
    if c.status = RedisStatus.ready ∨ c.status = RedisStatus.connect then (c, some c)
    else (freshClient, some freshClient)
  | none => (freshClient, some freshClient)

/-- The distinguished error thrown by the programmatic invalidation
operations: new CacheError("Redis not available"). -/
inductive ProgErr where
  | redisNotAvailable : ProgErr
deriving Repr, DecidableEq

/-- Model of invalidateByKey (src/invalidate-middleware.ts): throws the
distinguished store-unavailable error when the client is missing or not
ready; otherwise deletes the key. -/
def invalidateByKey (client : Option ClientHandle) (k : String) (store : Store) :
    Except ProgErr Store :=
  match client with
  | none => .error ProgErr.redisNotAvailable
  | some c =>
    if c.status = RedisStatus.ready then .ok (storeDel store k)
    else .error ProgErr.redisNotAvailable

/-- Model of invalidateByPattern (src/invalidate-middleware.ts): throws the
distinguished store-unavailable error when the client is missing or not
ready; otherwise scans keys matching the pattern, deletes any found, and
returns the count of keys deleted alongside the resulting store. -/
def invalidateByPattern (client : Option ClientHandle) (pat : String) (store : Store) :
    Except ProgErr (Store × Nat) :=
  match client with
  | none => .error ProgErr.redisNotAvailable
  | some c =>
    if c.status = RedisStatus.ready then
      let ks := storeKeys store pat
      .ok (storeDelAll store ks, ks.length)
    else .error ProgErr.redisNotAvailable

/-- A demonstration store holding the two entries the README's
multiple-key invalidation example would have cached. -/
def listKeyDemoStore : Store :=
  [("cache:GET:/api/posts", 60, "1"), ("cache:GET:/api/posts/recent", 60, "2")]

/-- The invalidation run of the README's multiple-key example,
invalidate with key ["GET:/api/posts", "GET:/api/posts/recent"]. -/
def listKeyDemoRun : InvOutcome :=
  invalidateRun ⟨KeySpec.list ["GET:/api/posts", "GET:/api/posts/recent"], none, none⟩
    (some RedisStatus.ready) ⟨"POST", "/api/posts"⟩ listKeyDemoStore false

/-- The empty string is not valid JSON: JSON.parse of it throws. -/
theorem jsonParse_empty : jsonParse "" = none := rfl

/-- A string that parses as JSON is nonempty, hence truthy in JavaScript. -/
theorem jsonParse_ne_empty {v : String} {j : Json} (h : jsonParse v = some j) : v ≠ "" := by
  intro hv
  subst hv
  rw [jsonParse_empty] at h
  exact Option.noConfusion h

/-- With a ready client, an eligible GET always reaches the store read. -/
theorem cacheRun_ready_read (opts : CacheOpts) (req : Req)
    (predResult : Except Unit Bool) (readResult : Except ReadErr (Option String))
    (hm : req.method = "GET") (hc : evalCacheable opts predResult = true) :
    (cacheRun opts (some RedisStatus.ready) req predResult readResult).readAttempted = true := by
  unfold cacheRun
  simp [hm, hc]
  rcases readResult with e | ov
  · rfl
  · rcases ov with _ | v
    · rfl
    · by_cases hv : v = ""
      · simp [hv]
      · rcases hj : jsonParse v with _ | j <;> simp [hv, hj]

/-- With a client that is not ready, an eligible GET passes through without
attempting the store read. -/
theorem cacheRun_not_ready (opts : CacheOpts) (st : RedisStatus) (req : Req)
    (predResult : Except Unit Bool) (readResult : Except ReadErr (Option String))
    (hm : req.method = "GET") (hc : evalCacheable opts predResult = true)
    (hs : st ≠ RedisStatus.ready) :
    cacheRun opts (some st) req predResult readResult =
      ⟨true, some ⟨false, generateCacheKey req opts.key opts.prefixStr⟩, none, false, false⟩ := by
  unfold cacheRun
  simp [hm, hc, hs]

/-- The invalidation handler skips its store block when the client is not
ready. -/
theorem invalidateRun_not_ready (io : InvalidateOpts) (st : RedisStatus) (req : Req)
    (store : Store) (fl : Bool) (hs : st ≠ RedisStatus.ready) :
    invalidateRun io (some st) req store fl = ⟨store, 1, none, [], false⟩ := by
  simp [invalidateRun, hs]

/-- The invalidation handler reaches its store block when the client is
ready. -/
theorem invalidateRun_ready_attempted (io : InvalidateOpts) (req : Req)
    (store : Store) (fl : Bool) :
    (invalidateRun io (some RedisStatus.ready) req store fl).attempted = true := by
  cases fl
  · rcases hp : io.pattern with _ | p
    · simp [invalidateRun, hp, invalidateKeyBranch]
    · by_cases hep : p = "" <;> simp [invalidateRun, hp, hep, invalidateKeyBranch]
  · rfl

/-- C1 (counterexample). The claim fails as stated: the store read returns
the non-null value consisting of a single opening brace, an eligible GET
under the default configuration enters the hit branch (the value is truthy),
but JSON.parse throws, the surrounding catch swallows the error, next() IS
called, and nothing is emitted — contradicting "emits it as the final
response without ever invoking the downstream continuation". -/
theorem c1_counterexample :
    (cacheRun defaultCacheOpts (some RedisStatus.ready) ⟨"GET", "/api/users?x=1"⟩
      (Except.ok true) (Except.ok (some "\x7b"))).nextCalled = true ∧
    (cacheRun defaultCacheOpts (some RedisStatus.ready) ⟨"GET", "/api/users?x=1"⟩
      (Except.ok true) (Except.ok (some "\x7b"))).emitted = none := ⟨rfl, rfl⟩

/-- C1 (amended). For every eligible GET request for which the store read
returns a non-null value that successfully deserializes as JSON (such a
value is in particular nonempty, hence truthy), the read-through interceptor
sets the cache-status record to hit=true, deserializes the stored payload,
and emits it as the final response without invoking next and without
installing the emission wrappers. -/
theorem c1_hit_short_circuit (opts : CacheOpts) (req : Req)
    (predResult : Except Unit Bool) (v : String) (j : Json)
    (hm : req.method = "GET") (hc : evalCacheable opts predResult = true)
    (hj : jsonParse v = some j) :
    cacheRun opts (some RedisStatus.ready) req predResult (Except.ok (some v)) =
      ⟨false, some ⟨true, generateCacheKey req opts.key opts.prefixStr⟩, some j, false, true⟩ := by
  have hv : v ≠ "" := jsonParse_ne_empty hj
  unfold cacheRun
  simp [hm, hc, hv, hj]

/-- C1 (witness). The amended hit theorem at a concrete input: default
configuration, GET /x, stored value "null". -/
theorem c1_hit_short_circuit_witness :
    cacheRun defaultCacheOpts (some RedisStatus.ready) ⟨"GET", "/x"⟩ (Except.ok true)
        (Except.ok (some "null")) =
      ⟨false,
        some ⟨true, generateCacheKey ⟨"GET", "/x"⟩ defaultCacheOpts.key defaultCacheOpts.prefixStr⟩,
        some Json.null, false, true⟩ :=
  c1_hit_short_circuit defaultCacheOpts ⟨"GET", "/x"⟩ (Except.ok true) "null" Json.null
    rfl rfl rfl

/-- C2. The wrapped emission functions write to the store only when the
response status is 2xx: outside the 2xx range both wrappers leave the store
unchanged, and in particular a 404 response leaves an absent cache key
absent. -/
theorem c2_only_2xx_cached :
    (∀ (store : Store) (ck : String) (t statusCode : Nat) (body : Json),
      ¬ (200 ≤ statusCode ∧ statusCode < 300) →
      (wrappedJson store ck t statusCode body).1 = store) ∧
    (∀ (store : Store) (ck : String) (t statusCode : Nat) (chunk ct : Option String),
      ¬ (200 ≤ statusCode ∧ statusCode < 300) →
      (wrappedEnd store ck t statusCode chunk ct).1 = store) ∧
    (∀ (store : Store) (ck : String) (t : Nat) (body : Json),
      storeGet store ck = none →
      storeGet (wrappedJson store ck t 404 body).1 ck = none) := by
  refine ⟨?_, ?_, ?_⟩
  · intro store ck t statusCode body h
    simp [wrappedJson, h]
  · intro store ck t statusCode chunk ct h
    simp [wrappedEnd, h]
  · intro store ck t body h
    have hn : ¬ (200 ≤ 404 ∧ 404 < 300) := by omega
    simp [wrappedJson, hn, h]

/-- C2 (witness). The three conjuncts at concrete inputs: a 404 res.json, a
500 res.end, and the 404 absence preservation. -/
theorem c2_only_2xx_cached_witness :
    (wrappedJson [] "cache:GET:/u" 60 404 (Json.str "x")).1 = [] ∧
    (wrappedEnd [] "cache:GET:/u" 60 500 (some "1") (some "application/json")).1 = [] ∧
    storeGet (wrappedJson [] "cache:GET:/u" 60 404 (Json.str "x")).1 "cache:GET:/u" = none :=
  ⟨c2_only_2xx_cached.1 [] "cache:GET:/u" 60 404 (Json.str "x") (by omega),
   c2_only_2xx_cached.2.1 [] "cache:GET:/u" 60 500 (some "1") (some "application/json") (by omega),
   c2_only_2xx_cached.2.2 [] "cache:GET:/u" 60 (Json.str "x") rfl⟩

/-- C3. Every exception raised during the store read — the distinguished
timeout error from the racing timer as well as any other error — is caught:
the pipeline continues (next is called), nothing is emitted, and the
emission wrappers are not installed, so the response is not cached. -/
theorem c3_read_error_fail_open (opts : CacheOpts) (req : Req)
    (predResult : Except Unit Bool) (e : ReadErr)
    (hm : req.method = "GET") (hc : evalCacheable opts predResult = true) :
    cacheRun opts (some RedisStatus.ready) req predResult (Except.error e) =
      ⟨true, some ⟨false, generateCacheKey req opts.key opts.prefixStr⟩, none, false, true⟩ := by
  unfold cacheRun
  simp [hm, hc]

/-- C3 (witness). The fail-open theorem at a concrete input: default
configuration, GET /x, a timeout error from the race. -/
theorem c3_read_error_fail_open_witness :
    cacheRun defaultCacheOpts (some RedisStatus.ready) ⟨"GET", "/x"⟩ (Except.ok true)
        (Except.error ReadErr.timeoutErr) =
      ⟨true,
        some ⟨false, generateCacheKey ⟨"GET", "/x"⟩ defaultCacheOpts.key defaultCacheOpts.prefixStr⟩,
        none, false, true⟩ :=
  c3_read_error_fail_open defaultCacheOpts ⟨"GET", "/x"⟩ (Except.ok true) ReadErr.timeoutErr
    rfl rfl

/-- C4. With no key configured and no prefix configured, the derived key is
"cache:" followed by the method, a colon, and the full original URL; the
concrete GET /api/users?x=1 instance yields cache:GET:/api/users?x=1. -/
theorem c4_default_key_shape :
    (∀ req : Req, generateCacheKey req KeySpec.noKey none =
      "cache:" ++ req.method ++ ":" ++ req.originalUrl) ∧
    generateCacheKey ⟨"GET", "/api/users?x=1"⟩ KeySpec.noKey none =
      "cache:GET:/api/users?x=1" := by
  constructor
  · intro req
    rw [String.append_assoc "cache:" req.method ":",
      String.append_assoc "cache:" (req.method ++ ":") req.originalUrl]
    rfl
  · rfl

/-- C5 (code bug). The README documents key: string[] ("Invalidate multiple
keys"), and the spec requires deleting every listed key, but the
implementation has no list branch: at runtime the array is coerced by the
template literal into a single comma-joined key body. Evaluating the
middleware at the README's own example — key ["GET:/api/posts",
"GET:/api/posts/recent"] against a store holding the two corresponding
cached entries — deletes only the bogus single key
cache:GET:/api/posts,GET:/api/posts/recent and leaves both real entries
present. -/
theorem c5_list_key_coerced_single_delete :
    listKeyDemoRun.deleted = ["cache:GET:/api/posts,GET:/api/posts/recent"] ∧
    storeGet listKeyDemoRun.store "cache:GET:/api/posts" = some "1" ∧
    storeGet listKeyDemoRun.store "cache:GET:/api/posts/recent" = some "2" :=
  ⟨rfl, rfl, rfl⟩

/-- C6 (counterexample). The claim fails as stated: a handle in the
"connect" status (the spec's "connecting") DOES cause the skip-store
pass-through in both interceptors — only "ready" avoids it. Shown for both
the connect and the connecting ioredis statuses. -/
theorem c6_counterexample :
    (cacheRun defaultCacheOpts (some RedisStatus.connect) ⟨"GET", "/a"⟩
      (Except.ok true) (Except.ok none)).readAttempted = false ∧
    (cacheRun defaultCacheOpts (some RedisStatus.connect) ⟨"GET", "/a"⟩
      (Except.ok true) (Except.ok none)).nextCalled = true ∧
    (cacheRun defaultCacheOpts (some RedisStatus.connecting) ⟨"GET", "/a"⟩
      (Except.ok true) (Except.ok none)).readAttempted = false ∧
    (invalidateRun ⟨KeySpec.noKey, none, none⟩ (some RedisStatus.connect) ⟨"POST", "/a"⟩
      [("cache:GET:/a", 60, "v")] false).attempted = false ∧
    (invalidateRun ⟨KeySpec.noKey, none, none⟩ (some RedisStatus.connecting) ⟨"POST", "/a"⟩
      [("cache:GET:/a", 60, "v")] false).attempted = false :=
  ⟨rfl, rfl, rfl, rfl, rfl⟩

/-- C6 (amended). Both interceptors' availability checks treat only a handle
in the ready state as available: for an eligible GET, the read-through
interceptor attempts the store read exactly when the handle status is ready,
and the invalidation interceptor reaches its store block exactly when the
handle status is ready; a missing handle always causes the pass-through.
(The ready-or-connect policy exists only in the creation singleton reuse
check and isRedisConnected, not in the interceptors.) -/
theorem c6_only_ready_available (st : RedisStatus) (opts : CacheOpts) (io : InvalidateOpts)
    (req : Req) (predResult : Except Unit Bool) (readResult : Except ReadErr (Option String))
    (store : Store) (fl : Bool)
    (hm : req.method = "GET") (hc : evalCacheable opts predResult = true) :
    ((cacheRun opts (some st) req predResult readResult).readAttempted = true ↔
      st = RedisStatus.ready) ∧
    (cacheRun opts none req predResult readResult).readAttempted = false ∧
    ((invalidateRun io (some st) req store fl).attempted = true ↔
      st = RedisStatus.ready) ∧
    (invalidateRun io none req store fl).attempted = false := by
  refine ⟨⟨?_, ?_⟩, ?_, ⟨?_, ?_⟩, ?_⟩
  · intro h
    by_contra hs
    rw [cacheRun_not_ready opts st req predResult readResult hm hc hs] at h
    exact Bool.noConfusion h
  · intro hs
    subst hs
    exact cacheRun_ready_read opts req predResult readResult hm hc
  · unfold cacheRun
    simp [hm, hc]
  · intro h
    by_contra hs
    rw [invalidateRun_not_ready io st req store fl hs] at h
    exact Bool.noConfusion h
  · intro hs
    subst hs
    exact invalidateRun_ready_attempted io req store fl
  · rfl

/-- C6 (witness). The amended availability theorem at a concrete input with
a ready handle. -/
theorem c6_only_ready_available_witness :
    ((cacheRun defaultCacheOpts (some RedisStatus.ready) ⟨"GET", "/a"⟩ (Except.ok true)
        (Except.ok none)).readAttempted = true ↔ RedisStatus.ready = RedisStatus.ready) ∧
    (cacheRun defaultCacheOpts none ⟨"GET", "/a"⟩ (Except.ok true)
        (Except.ok none)).readAttempted = false ∧
    ((invalidateRun ⟨KeySpec.noKey, none, none⟩ (some RedisStatus.ready) ⟨"GET", "/a"⟩ [] false).attempted = true ↔
      RedisStatus.ready = RedisStatus.ready) ∧
    (invalidateRun ⟨KeySpec.noKey, none, none⟩ none ⟨"GET", "/a"⟩ [] false).attempted = false :=
  c6_only_ready_available RedisStatus.ready defaultCacheOpts ⟨KeySpec.noKey, none, none⟩
    ⟨"GET", "/a"⟩ (Except.ok true) (Except.ok none) [] false rfl rfl

/-- C7. The invalidation middleware's per-request handler calls the
downstream continuation exactly once on every execution path: missing
handle, not-ready handle, pattern branch, key branch, and an exception
thrown by the store operations. -/
theorem c7_next_exactly_once (io : InvalidateOpts) (client : Option RedisStatus) (req : Req)
    (store : Store) (fl : Bool) :
    (invalidateRun io client req store fl).nextCalls = 1 := by
  rcases client with _ | s
  · rfl
  · by_cases hs : s = RedisStatus.ready
    · subst hs
      cases fl
      · rcases hp : io.pattern with _ | p
        · simp [invalidateRun, hp, invalidateKeyBranch]
        · by_cases hep : p = "" <;> simp [invalidateRun, hp, hep, invalidateKeyBranch]
      · rfl
    · simp [invalidateRun, hs]

/-- C8. The programmatic invalidation operations raise the distinguished
store-unavailable error exactly when the handle is missing or not ready;
with a ready handle invalidateByKey deletes the key and invalidateByPattern
deletes the matching keys and returns their count. -/
theorem c8_programmatic_unavailable_error :
    (∀ (k : String) (store : Store),
      invalidateByKey none k store = Except.error ProgErr.redisNotAvailable) ∧
    (∀ (c : ClientHandle) (k : String) (store : Store), c.status ≠ RedisStatus.ready →
      invalidateByKey (some c) k store = Except.error ProgErr.redisNotAvailable) ∧
    (∀ (c : ClientHandle) (k : String) (store : Store), c.status = RedisStatus.ready →
      invalidateByKey (some c) k store = Except.ok (storeDel store k)) ∧
    (∀ (pat : String) (store : Store),
      invalidateByPattern none pat store = Except.error ProgErr.redisNotAvailable) ∧
    (∀ (c : ClientHandle) (pat : String) (store : Store), c.status ≠ RedisStatus.ready →
      invalidateByPattern (some c) pat store = Except.error ProgErr.redisNotAvailable) ∧
    (∀ (c : ClientHandle) (pat : String) (store : Store), c.status = RedisStatus.ready →
      invalidateByPattern (some c) pat store =
        Except.ok (storeDelAll store (storeKeys store pat), (storeKeys store pat).length)) := by
  refine ⟨fun k store => rfl, ?_, ?_, fun pat store => rfl, ?_, ?_⟩ <;>
    intro c x store h <;> simp [invalidateByKey, invalidateByPattern, h]

/-- C8 (witness). The programmatic operations at concrete inputs: a closed
handle raises the error, a ready handle deletes by key, and a ready handle
deletes by pattern and reports the count. -/
theorem c8_programmatic_unavailable_error_witness :
    invalidateByKey (some ⟨1, RedisStatus.close⟩) "k" [] =
      Except.error ProgErr.redisNotAvailable ∧
    invalidateByKey (some ⟨1, RedisStatus.ready⟩) "k" [] = Except.ok (storeDel [] "k") ∧
    invalidateByPattern (some ⟨1, RedisStatus.connect⟩) "user:*" [] =
      Except.error ProgErr.redisNotAvailable ∧
    invalidateByPattern (some ⟨1, RedisStatus.ready⟩) "user:*"
        [("user:1", 60, "a"), ("user:2", 60, "b"), ("order:1", 60, "c")] =
      Except.ok
        (storeDelAll [("user:1", 60, "a"), ("user:2", 60, "b"), ("order:1", 60, "c")]
          (storeKeys [("user:1", 60, "a"), ("user:2", 60, "b"), ("order:1", 60, "c")] "user:*"),
        (storeKeys [("user:1", 60, "a"), ("user:2", 60, "b"), ("order:1", 60, "c")] "user:*").length) :=
  ⟨c8_programmatic_unavailable_error.2.1 ⟨1, RedisStatus.close⟩ "k" [] (by decide),
   c8_programmatic_unavailable_error.2.2.1 ⟨1, RedisStatus.ready⟩ "k" [] rfl,
   c8_programmatic_unavailable_error.2.2.2.2.1 ⟨1, RedisStatus.connect⟩ "user:*" [] (by decide),
   c8_programmatic_unavailable_error.2.2.2.2.2 ⟨1, RedisStatus.ready⟩ "user:*"
     [("user:1", 60, "a"), ("user:2", 60, "b"), ("order:1", 60, "c")] rfl⟩

/-- C9. Creating a store handle while an existing handle is live — status
ready (connected) or connect (still connecting, the reuse condition the
source checks) — returns the existing handle and leaves the singleton
unchanged, instead of constructing a new connection. -/
theorem c9_create_idempotent (c : ClientHandle) (freshClient : ClientHandle)
    (h : c.status = RedisStatus.ready ∨ c.status = RedisStatus.connect) :
    createRedisClient (some c) freshClient = (c, some c) := by
  rcases h with h | h <;> simp [createRedisClient, h]

/-- C9 (witness). The idempotence theorem at a concrete input: a ready
handle survives a second creation call. -/
theorem c9_create_idempotent_witness :
    createRedisClient (some ⟨1, RedisStatus.ready⟩) ⟨2, RedisStatus.connecting⟩ =
      (⟨1, RedisStatus.ready⟩, some ⟨1, RedisStatus.ready⟩) :=
  c9_create_idempotent ⟨1, RedisStatus.ready⟩ ⟨2, RedisStatus.connecting⟩ (Or.inl rfl)

/-- C10 (counterexample). The claim fails as stated: a configuration that
supplies the empty-string match pattern does NOT have it passed to the key
scan — the source gate is the JavaScript-truthy if (options.pattern), the
empty string is falsy, and the handler falls through to key-based
invalidation, scanning nothing and deleting the derived prefixed key. -/
theorem c10_counterexample :
    (invalidateRun ⟨KeySpec.noKey, none, some ""⟩ (some RedisStatus.ready)
      ⟨"POST", "/u"⟩ [("cache:POST:/u", 60, "v")] false).scanned = none ∧
    (invalidateRun ⟨KeySpec.noKey, none, some ""⟩ (some RedisStatus.ready)
      ⟨"POST", "/u"⟩ [("cache:POST:/u", 60, "v")] false).deleted = ["cache:POST:/u"] ∧
    storeGet (invalidateRun ⟨KeySpec.noKey, none, some ""⟩ (some RedisStatus.ready)
      ⟨"POST", "/u"⟩ [("cache:POST:/u", 60, "v")] false).store "cache:POST:/u" = none :=
  ⟨rfl, rfl, rfl⟩

/-- C10 (amended). A configured truthy (non-empty) pattern is handed to the
store's key scan verbatim — never prefixed; an absent pattern, or a
configured empty-string pattern (falsy), takes key-based invalidation, which
always deletes the prefixed derived key; concretely, against a store holding
only the prefixed key cache:GET:/u, the pattern GET:* matches nothing and
the entry survives, whereas the pattern cache:GET:* removes it. -/
theorem c10_pattern_verbatim :
    (∀ (io : InvalidateOpts) (req : Req) (store : Store) (p : String),
      io.pattern = some p → p ≠ "" →
      (invalidateRun io (some RedisStatus.ready) req store false).scanned = some p) ∧
    (∀ (io : InvalidateOpts) (req : Req) (store : Store), io.pattern = none →
      (invalidateRun io (some RedisStatus.ready) req store false).deleted =
        [generateCacheKey req io.key io.prefixStr]) ∧
    (∀ (io : InvalidateOpts) (req : Req) (store : Store), io.pattern = some "" →
      (invalidateRun io (some RedisStatus.ready) req store false).scanned = none ∧
      (invalidateRun io (some RedisStatus.ready) req store false).deleted =
        [generateCacheKey req io.key io.prefixStr]) ∧
    storeGet (invalidateRun ⟨KeySpec.noKey, none, some "GET:*"⟩ (some RedisStatus.ready)
      ⟨"POST", "/u"⟩ [("cache:GET:/u", 60, "v")] false).store "cache:GET:/u" = some "v" ∧
    storeGet (invalidateRun ⟨KeySpec.noKey, none, some "cache:GET:*"⟩ (some RedisStatus.ready)
      ⟨"POST", "/u"⟩ [("cache:GET:/u", 60, "v")] false).store "cache:GET:/u" = none := by
  refine ⟨?_, ?_, ?_, ?_, ?_⟩
  · intro io req store p hp hep
    simp [invalidateRun, hp, hep]
  · intro io req store hp
    simp [invalidateRun, hp, invalidateKeyBranch]
  · intro io req store hp
    constructor <;> simp [invalidateRun, hp, invalidateKeyBranch]
  · rfl
  · rfl

/-- C10 (witness). The quantified conjuncts at concrete inputs: a non-empty
literal pattern is scanned verbatim, the key branch deletes the derived
prefixed key, and an empty-string pattern falls through to the key branch. -/
theorem c10_pattern_verbatim_witness :
    (invalidateRun ⟨KeySpec.noKey, none, some "user:*"⟩ (some RedisStatus.ready)
      ⟨"POST", "/u"⟩ [] false).scanned = some "user:*" ∧
    (invalidateRun ⟨KeySpec.noKey, none, none⟩ (some RedisStatus.ready)
      ⟨"POST", "/u"⟩ [] false).deleted = [generateCacheKey ⟨"POST", "/u"⟩ KeySpec.noKey none] ∧
    (invalidateRun ⟨KeySpec.noKey, none, some ""⟩ (some RedisStatus.ready)
      ⟨"POST", "/u"⟩ [] false).scanned = none :=
  ⟨c10_pattern_verbatim.1 ⟨KeySpec.noKey, none, some "user:*"⟩ ⟨"POST", "/u"⟩ [] "user:*"
     rfl (by decide),
   c10_pattern_verbatim.2.1 ⟨KeySpec.noKey, none, none⟩ ⟨"POST", "/u"⟩ [] rfl,
   (c10_pattern_verbatim.2.2.1 ⟨KeySpec.noKey, none, some ""⟩ ⟨"POST", "/u"⟩ [] rfl).1⟩
